import Mathlib

/-!
Verification of the shopify review-page scraping services against their
natural-language specification.  The Python sources under
`email-scraper-service/` and `url-finder-service/` are shallowly embedded:
pure functions become Lean functions on `List Char` / `String`, database
updates become explicit state transformations on store records, HTTP traffic
becomes an oracle `Nat → Resp` consumed one response per issued request, and
timestamps are natural numbers (minutes).  External collaborators
(BeautifulSoup parsing, the AI providers, the network) appear only as value
parameters, exactly at the interfaces the code calls them.
-/

namespace Spec2Proof

/-! ## Shared helpers: Python string primitives on `List Char`

`CL` is the character-list view of a Python `str`.  All operations model the
ASCII fragment actually exercised by the code (emails, URLs, statuses). -/

abbrev CL := List Char

/-- Character data of a string literal. -/
def str (s : String) : CL := s.data

/-- ASCII model of Python `str.lower` on one character. -/
def lowerChar (c : Char) : Char :=
  if 65 ≤ c.toNat ∧ c.toNat ≤ 90 then Char.ofNat (c.toNat + 32) else c

/-- Python `str.lower`. -/
def lowerCL (s : CL) : CL := s.map lowerChar

/-- Python whitespace as stripped by `str.strip`. -/
def isPySpace (c : Char) : Bool :=
  c == ' ' || c == '\t' || c == '\n' || c == '\r' || c == '\x0b' || c == '\x0c'

/-- Python `str.lstrip`. -/
def lstrip (s : CL) : CL := s.dropWhile isPySpace

/-- Drop trailing characters satisfying `p` (used for `rstrip`). -/
def rstripBy (p : Char → Bool) (s : CL) : CL := (s.reverse.dropWhile p).reverse

/-- Python `str.strip`. -/
def pyStrip (s : CL) : CL := rstripBy isPySpace (lstrip s)

/-- Python `s.split(sep)` for a one-character separator. -/
def splitOnChar (sep : Char) : CL → List CL
  | [] => [[]]
  | c :: cs =>
    let r := splitOnChar sep cs
    if c = sep then [] :: r
    else
      match r with
      | h :: t => (c :: h) :: t
      | [] => [[c]]

/-- Prefix of `s` before the first occurrence of `sep` (whole string if absent);
Python `s.split(sep, 1)[0]`. -/
def takeBefore (sep : Char) (s : CL) : CL := s.takeWhile (· != sep)

/-- Suffix of `s` after the first occurrence of `sep`;
Python `s.split(sep, 1)[1]` when `sep` occurs. -/
def dropPast (sep : Char) (s : CL) : CL := (s.dropWhile (· != sep)).tail

/-- Prefix of `s` before the last occurrence of `sep`;
Python `s.rsplit(sep, 1)[0]` when `sep` occurs. -/
def takeBeforeLast (sep : Char) (s : CL) : CL :=
  (dropPast sep s.reverse).reverse

/-- Suffix of `s` after the last occurrence of `sep`;
Python `s.rsplit(sep, 1)[-1]` when `sep` occurs. -/
def afterLast (sep : Char) (s : CL) : CL :=
  (takeBefore sep s.reverse).reverse

/-- Python `needle in haystack` for strings (contiguous substring test). -/
def containsSub (needle : CL) : CL → Bool
  | [] => needle.isEmpty
  | s@(_ :: rest) => needle.isPrefixOf s || containsSub needle rest

/-- Python truthiness of an `Optional[str]` (`None` and `''` are falsy). -/
def pyTruthyStr (s : Option String) : Bool :=
  match s with
  | some t => t != ""
  | none => false

/-- Python truthiness of an `Optional[List[str]]` (`None` and `[]` are falsy). -/
def pyTruthyList (l : Option (List String)) : Bool :=
  match l with
  | some xs => !xs.isEmpty
  | none => false

/-! ## Email-scraper service: `database.py` store rows (claims C1, C4)

One row of the `stores` table, restricted to the columns the email-scraping
methods read or write.  Timestamps are `Nat` minutes; `CURRENT_TIMESTAMP`
becomes the `now` argument. -/

structure EmailStore where
  status : String
  emails : List String
  raw_emails : Option (List String)
  emails_found : Nat
  emails_scraped_at : Option Nat
  email_scraping_last_error : Option String
  email_scraping_failed_at : Option Nat
  updated_at : Nat
deriving DecidableEq

/-- `Database.update_store_emails` (email-scraper-service/database.py):
reads the current status; if it is `email_scraping_failed` or
`email_scraping_permanent_failure` only the email/timestamp columns are
written, otherwise the status is recomputed from `scraping_error` and the
number of emails.  `raw_emails` is stored as NULL when falsy
(`json.dumps(raw_emails) if raw_emails else None`). -/
def update_store_emails (s : EmailStore) (now : Nat) (emails : List String)
    (raw_emails : Option (List String)) (scraping_error : Option String) : EmailStore :=
  let raw_emails_json := if pyTruthyList raw_emails then raw_emails else none
  if s.status = "email_scraping_failed" ∨ s.status = "email_scraping_permanent_failure" then
    { s with emails := emails, raw_emails := raw_emails_json,
             emails_found := emails.length, emails_scraped_at := some now,
             updated_at := now }
  else
    let status :=
      if pyTruthyStr scraping_error then "url_verified"
      else if 0 < emails.length then "emails_found"
      else "no_emails_found"
    { s with emails := emails, raw_emails := raw_emails_json,
             emails_found := emails.length, emails_scraped_at := some now,
             status := status, updated_at := now }

/-- `Database.mark_email_scraping_failed` (never invoked by the service code). -/
def mark_email_scraping_failed (s : EmailStore) (now : Nat)
    (error_type error_message : String) : EmailStore :=
  { s with status := "email_scraping_failed",
           email_scraping_last_error := some (error_type ++ ": " ++ error_message),
           email_scraping_failed_at := some now, updated_at := now }

/-- `Database.mark_email_scraping_permanent_failure` (never invoked by the service code). -/
def mark_email_scraping_permanent_failure (s : EmailStore) (now : Nat)
    (error_message : String) : EmailStore :=
  { s with status := "email_scraping_permanent_failure",
           email_scraping_last_error := some error_message, updated_at := now }

/-- Crawl statistics returned by `EmailScraper.scrape_emails`. -/
structure CrawlStats where
  pages_discovered : Nat
  pages_scraped : Nat
  pages_failed : Nat
  pages_with_emails : Nat
deriving DecidableEq

/-- The `scraping_error` that `scrape_emails_for_store` (app.py) derives from
the crawl outcome: set only when no raw email was found, distinguishing the
three total-failure shapes. -/
def compute_scraping_error (raw_emails : List String) (stats : CrawlStats) : Option String :=
  if raw_emails.length = 0 then
    if stats.pages_discovered = 0 then some "No pages discovered"
    else if stats.pages_failed = stats.pages_discovered then
      some ("All " ++ toString stats.pages_discovered ++ " pages failed")
    else if stats.pages_scraped = 0 then some "No pages successfully scraped"
    else none
  else none

/-- The database effect of `scrape_emails_for_store` (app.py) after a crawl
that produced `raw_emails` and `stats`: derive `scraping_error`, run the AI
relevance filter (a collaborator, present whenever raw emails exist), and
persist through `update_store_emails`. -/
def scrape_emails_for_store (s : EmailStore) (now : Nat) (raw_emails : List String)
    (stats : CrawlStats) (ai_filter : List String → List String) : EmailStore :=
  let scraping_error := compute_scraping_error raw_emails stats
  let emails := if !raw_emails.isEmpty then ai_filter raw_emails else raw_emails
  update_store_emails s now emails (some raw_emails) scraping_error

/-! ## URL-finder service: `database.py` store rows (claims C2, C6, C7)

One row of the url-finder `stores` table, restricted to the columns that the
locking, sweeping and marking methods read or write (`url_verified` /
`verified_at`, which `update_store_url` also sets, carry no claim-relevant
information). -/

structure UrlStore where
  status : String
  base_url : Option String
  updated_at : Nat
  url_finding_attempts : Nat
  url_confidence : Option ℚ
  url_finding_provider : Option String
  url_finding_error : Option String
deriving DecidableEq

/-- SQL `base_url IS NOT NULL AND base_url != ''`. -/
def base_url_nonempty (s : UrlStore) : Bool :=
  match s.base_url with
  | some u => u != ""
  | none => false

/-- `Database.lock_store_for_processing`: the atomic conditional transition
`claim the row where status ≠ 'processing' OR updated_at is older than 30
minutes, then set status = 'processing'`.  `SELECT ... FOR UPDATE NOWAIT`
makes the check-and-set atomic, so concurrent attempts are serialized by the
database; we model one attempt as one state transformation. -/
def lock_store_for_processing (s : UrlStore) (now : Nat) : Bool × UrlStore :=
  if s.status ≠ "processing" ∨ s.updated_at + 30 < now then
    (true, { s with status := "processing", updated_at := now })
  else
    (false, s)

/-- One row under `Database.unlock_stuck_stores`: rows matching
`status = 'processing' AND updated_at < NOW() - timeout` get
`status = CASE WHEN base_url nonempty THEN status ELSE 'pending_url' END`
and a refreshed `updated_at`. -/
def unlock_stuck_store_row (now timeout_minutes : Nat) (s : UrlStore) : UrlStore :=
  if s.status = "processing" ∧ s.updated_at + timeout_minutes < now then
    { s with status := if base_url_nonempty s then s.status else "pending_url",
             updated_at := now }
  else s

/-- `Database.unlock_stuck_stores` over the whole table, returning the new
table and the SQL rowcount of matched rows. -/
def unlock_stuck_stores (now timeout_minutes : Nat) (stores : List UrlStore) :
    List UrlStore × Nat :=
  (stores.map (unlock_stuck_store_row now timeout_minutes),
   (stores.filter (fun s =>
      s.status == "processing" && decide (s.updated_at + timeout_minutes < now))).length)

/-- Concrete stale lock: a store stuck in `processing` for 31 minutes that
already carries a non-empty `base_url`. -/
def c6_stuck_store : UrlStore :=
  { status := "processing", base_url := some "https://example.com", updated_at := 0,
    url_finding_attempts := 1, url_confidence := none, url_finding_provider := none,
    url_finding_error := none }

/-- `Database.mark_store_needs_review`: sets `status = 'needs_review'` and the
optional error/provider/confidence columns (each only when supplied). -/
def mark_store_needs_review (s : UrlStore) (now : Nat) (reason : Option String)
    (provider : Option String) (confidence : Option ℚ) : UrlStore :=
  { s with status := "needs_review",
           url_finding_error := if pyTruthyStr reason then reason else s.url_finding_error,
           url_finding_provider :=
             if pyTruthyStr provider then provider else s.url_finding_provider,
           url_confidence := if confidence.isSome then confidence else s.url_confidence,
           updated_at := now }

/-- `Database.mark_store_not_found`: sets `status = 'not_found'` and the
optional error/provider columns. -/
def mark_store_not_found (s : UrlStore) (now : Nat) (reason : Option String)
    (provider : Option String) : UrlStore :=
  { s with status := "not_found",
           url_finding_error := if pyTruthyStr reason then reason else s.url_finding_error,
           url_finding_provider :=
             if pyTruthyStr provider then provider else s.url_finding_provider,
           updated_at := now }

/-- `Database.update_store_url` (url-finder-service/database.py): stores the
URL, sets `status = 'url_verified'`, clears the error column. -/
def update_store_url (s : UrlStore) (now : Nat) (url : String)
    (confidence : Option ℚ) (provider : Option String) : UrlStore :=
  { s with base_url := some url, status := "url_verified", url_finding_error := none,
           url_confidence := if confidence.isSome then confidence else s.url_confidence,
           url_finding_provider :=
             if pyTruthyStr provider then provider else s.url_finding_provider,
           updated_at := now }

/-- The exception raised by every call to
`self.db.save_store_candidate_urls(...)`: the url-finder `Database` class
defines no such method (nor any `candidate_urls` storage), so the attribute
lookup fails at runtime before any SQL runs.  `BackgroundWorker.process_store`
performs this call — directly (line 521) or through its local
`save_candidate_urls` helper (line 324, used at 432 and 547) — at the start
of every branch that would mark a store `needs_review`. -/
def save_store_candidate_urls_missing : String :=
  "AttributeError: 'Database' object has no attribute 'save_store_candidate_urls'"

/-! ## URL-finder service: `modules/background_worker.py` (claim C2) -/

/-- Result shape of `BackgroundWorker.find_url_with_fallback`.  `results` is
the provider's ordered candidate list, modeled by candidate URL strings. -/
structure FallbackResult where
  success : Bool
  url : Option String
  confidence : Option ℚ
  provider : Option String
  reasoning : String
  results : List String
  error : Option String

/-- `BackgroundWorker.should_auto_save`: `threshold or AUTO_SAVE_THRESHOLD`
(Python truthiness: a zero threshold falls back to the configured default),
then `confidence >= threshold`; `None` confidence is never auto-saved. -/
def should_auto_save (confidence : Option ℚ) (threshold default_threshold : ℚ) : Bool :=
  let t := if threshold ≠ 0 then threshold else default_threshold
  match confidence with
  | none => false
  | some c => t ≤ c

/-- `BackgroundWorker.process_store`, as a fallible transformation of the
store row.  Environment inputs: the provider outcome `r` (one
`find_url_with_fallback` result), the live URL validator `validate`
(`URLValidator.validate_url(...)['is_valid']`; consulted only when
`validation_on`, which combines `URL_VALIDATION_ENABLED` with validator
availability), and `clean_url` (`URLFinder.clean_url`).  `Except.ok` carries
the `action` string of the Python return value and the resulting row;
`Except.error` is the uncaught `AttributeError` from
`self.db.save_store_candidate_urls(...)` (a method that does not exist), which
occurs at the start of every would-be `needs_review` branch — before
`mark_store_needs_review` runs, so no row write has happened when it
propagates (the worker loop in `run_continuous` catches it and merely
releases the lock).  The DB-write exception handler around the auto-save
itself is not modeled (that write succeeds). -/
def process_store (s : UrlStore) (now : Nat) (store_name : String)
    (r : FallbackResult) (validation_on : Bool) (validate : String → Bool)
    (clean_url : String → String) (auto_save_threshold low_confidence_threshold : ℚ) :
    Except String (String × UrlStore) :=
  if pyStrip (str store_name) = [] then
    .ok ("not_found", mark_store_not_found s now (some "Store name is empty") none)
  else if !r.success then
    .ok ("not_found",
      mark_store_not_found s now (some (r.error.getD "No providers available")) r.provider)
  else
    match r.url with
    | none =>
      .ok ("not_found",
        mark_store_not_found s now (some "No URL returned from provider") r.provider)
    | some url =>
      if url = "" then
        .ok ("not_found",
          mark_store_not_found s now (some "No URL returned from provider") r.provider)
      else
        -- validation phase: on failure of the primary URL, try up to 5
        -- alternative candidates; an accepted alternative lowers a truthy
        -- confidence by 0.1 (floored at 0)
        let confidence := r.confidence
        let tryAlt :=
          if validation_on ∧ ¬ validate url then
            match (r.results.take 5).find?
                (fun cu => cu != "" && cu != url && validate cu) with
            | some alt =>
              some (alt,
                match confidence with
                | some c => if c ≠ 0 then some (max 0 (c - 1/10)) else confidence
                | none => confidence)
            | none => none
          else none
        let validation_failed := validation_on ∧ ¬ validate url ∧ tryAlt = none
        if validation_failed then
          if should_auto_save confidence auto_save_threshold auto_save_threshold then
            -- `save_candidate_urls(url, candidate_results)` (line 432) raises
            .error save_store_candidate_urls_missing
          else
            .ok ("not_found",
              mark_store_not_found s now (some "URL validation failed") r.provider)
        else
          let validated_url := match tryAlt with
            | some (alt, _) => alt
            | none => url
          let confidence := match tryAlt with
            | some (_, c) => c
            | none => confidence
          if should_auto_save confidence auto_save_threshold auto_save_threshold then
            .ok ("saved",
              update_store_url s now (clean_url validated_url) confidence r.provider)
          else
            -- very low (or missing) confidence branch, reached when neither
            -- threshold test fires
            let very_low : Except String (String × UrlStore) :=
              if validated_url != "" && validated_url != url then
                -- `save_candidate_urls(validated_url, ...)` (line 547) raises
                .error save_store_candidate_urls_missing
              else
                .ok ("not_found",
                  mark_store_not_found s now (some "Very low confidence") r.provider)
            match confidence with
            | some c =>
              if low_confidence_threshold ≤ c then
                -- medium confidence: `self.db.save_store_candidate_urls(...)`
                -- (line 521) raises before `mark_store_needs_review`
                .error save_store_candidate_urls_missing
              else very_low
            | none => very_low

/-! ## Email-scraper service: `modules/email_scraper.py` fetcher and
circuit breaker (claim C3) -/

/-- The mutable rate-limiting attributes of `EmailScraper`.  The fixed
constructor constants (`max_consecutive_429 = 5`,
`rate_limit_delay_multiplier = 2.0`, `max_delay = 60.0`) appear below as
literals, as in `__init__`. -/
structure ScraperState where
  base_delay : ℚ
  current_delay : ℚ
  consecutive_429_count : Nat
  circuit_open : Bool
deriving DecidableEq

/-- The HTTP outcome of one issued request, as classified by
`EmailScraper.get_page`: 404, 429 (with optional parsed `Retry-After`
seconds), any other `>= 400` status (retried with `2^attempt` backoff, just
like timeouts and client errors), or a readable 2xx response. -/
inductive Resp
  | ok
  | notFound
  | tooMany (retry_after : Option ℚ)
  | errOther
deriving DecidableEq

/-- `EmailScraper._handle_rate_limit`: bump the consecutive-429 counter,
compute the wait (Retry-After if truthy, else exponential backoff, both
capped at 60s), update `current_delay`, and open the circuit at 5
consecutive 429s.  Returns `(wait_time, new state)`. -/
def handle_rate_limit (retry_after : Option ℚ) (s : ScraperState) : ℚ × ScraperState :=
  let cnt := s.consecutive_429_count + 1
  let wait_time :=
    match retry_after with
    | some ra => if ra ≠ 0 then min ra 60 else min (s.current_delay * 2 ^ cnt) 60
    | none => min (s.current_delay * 2 ^ cnt) 60
  let s := { s with consecutive_429_count := cnt, current_delay := min wait_time 60 }
  let s := if 5 ≤ cnt then { s with circuit_open := true } else s
  (wait_time, s)

/-- `EmailScraper._reset_rate_limit_tracking`: zero the 429 counter, close
the circuit, relax `current_delay` toward `base_delay` by factor 0.9. -/
def reset_rate_limit_tracking (s : ScraperState) : ScraperState :=
  { s with consecutive_429_count := 0, circuit_open := false,
           current_delay :=
             if s.base_delay < s.current_delay then
               max s.base_delay (s.current_delay * (9/10))
             else s.current_delay }

/-- The retry loop of `EmailScraper.get_page` (`for attempt in
range(max_retries)`).  `oracle k` is the server's response to the `k`-th
request of the session; every loop iteration issues exactly one request.
Returns (body present?, state, next request index).  Falling out of the loop
returns `None` (line 269).  Body reading and `Retry-After` parsing happen in
the environment; sleeps have no observable effect here. -/
def get_page_loop (oracle : Nat → Resp) : Nat → ScraperState → Nat →
    Option Unit × ScraperState × Nat
  | 0, s, k => (none, s, k)
  | remaining + 1, s, k =>
    match oracle k with
    | .notFound => (none, reset_rate_limit_tracking s, k + 1)
    | .tooMany ra =>
      let (_, s) := handle_rate_limit ra s
      if s.circuit_open then (none, s, k + 1)
      else get_page_loop oracle remaining s (k + 1)
    | .errOther =>
      if remaining = 0 then (none, s, k + 1)
      else get_page_loop oracle remaining s (k + 1)
    | .ok => (some (), reset_rate_limit_tracking s, k + 1)

/-- `EmailScraper.get_page`: if the circuit is open on entry, wait
`current_delay` and close it (`self.circuit_open = False`), then run the
retry loop. -/
def get_page (max_retries : Nat) (oracle : Nat → Resp) (s : ScraperState) (k : Nat) :
    Option Unit × ScraperState × Nat :=
  let s := if s.circuit_open then { s with circuit_open := false } else s
  get_page_loop oracle max_retries s k

/-- Page counters aggregated by `EmailScraper.scrape_emails`. -/
structure LoopStats where
  pages_scraped : Nat
  pages_failed : Nat
deriving DecidableEq

/-- The page-scraping loop of `EmailScraper.scrape_emails` (lines 653-685):
iterate the discovered queue in order, skip URLs whose normalized form was
already visited, break as soon as the circuit is open, otherwise scrape
(`scrape_page` = `get_page` + pure extraction) and count the page as scraped
or failed.  `norm` is `normalize_url` (pure URL canonicalization, quantified
over in the theorems). -/
def scrape_pages_loop (max_retries : Nat) (oracle : Nat → Resp) (norm : String → String) :
    List String → List String → ScraperState → Nat → LoopStats →
    ScraperState × Nat × LoopStats
  | [], _, s, k, stats => (s, k, stats)
  | u :: rest, visited, s, k, stats =>
    let n := norm u
    if n ∈ visited then scrape_pages_loop max_retries oracle norm rest visited s k stats
    else
      let visited := n :: visited
      if s.circuit_open then (s, k, stats)
      else
        let (body, s, k) := get_page max_retries oracle s k
        let stats :=
          if body.isSome then { stats with pages_scraped := stats.pages_scraped + 1 }
          else { stats with pages_failed := stats.pages_failed + 1 }
        scrape_pages_loop max_retries oracle norm rest visited s k stats

/-- The `get_page` calls of `discover_pages`'s high-value-page pass
(`[url for url, pri in page_queue if pri == 1][:5]`; the seeded target
list alone contributes at least 5 priority-1 pages such as `/contact`,
`/pages/contact`, `/about`, `/help`, `/faq`, so this pass issues 5 calls
for every store URL). -/
def discover_high_value_fetches (max_retries : Nat) (oracle : Nat → Resp) :
    Nat → ScraperState → Nat → ScraperState × Nat
  | 0, s, k => (s, k)
  | n + 1, s, k =>
    let (_, s, k) := get_page max_retries oracle s k
    discover_high_value_fetches max_retries oracle n s k

/-- The sequence of `get_page` calls issued by
`EmailScraper.discover_pages` before the main scraping loop runs: one for
`/sitemap.xml` (via `expand_from_sitemap`), one for the homepage, then the
high-value-page pass.  Link extraction from the fetched bodies is pure
parsing (a collaborator) and does not influence which of these fetches
happen. -/
def discover_pages_fetches (max_retries : Nat) (oracle : Nat → Resp)
    (s : ScraperState) (k : Nat) : ScraperState × Nat :=
  let (_, s, k) := get_page max_retries oracle s k
  let (_, s, k) := get_page max_retries oracle s k
  discover_high_value_fetches max_retries oracle 5 s k

/-- Fresh session state with the constructor defaults of `EmailScraper`
(`delay = 0.5`). -/
def initial_scraper_state : ScraperState :=
  { base_delay := 1/2, current_delay := 1/2, consecutive_429_count := 0,
    circuit_open := false }

/-! ## Email-scraper service: `EmailScraper.expand_from_sitemap` (claim C9) -/

/-- The keyword list used to prioritize sitemap URLs. -/
def sitemap_keywords : List CL :=
  [str "contact", str "about", str "privacy", str "terms", str "help",
   str "support", str "team", str "email", str "policy", str "legal", str "faq"]

/-- Membership test of the prioritization pass (`if any(keyword in url_lower
...)` with its `elif 'policy' in url_lower or 'policies' in url_lower`
fallback). -/
def sitemap_prioritized (url : CL) : Bool :=
  let url_lower := lowerCL url
  sitemap_keywords.any (fun kw => containsSub kw url_lower)
    || containsSub (str "policy") url_lower
    || containsSub (str "policies") url_lower

/-- `EmailScraper.expand_from_sitemap`, given the `<loc>` texts parsed out of
a successfully fetched sitemap (a failed fetch yields `[]` before this
logic): keep truthy URLs, move keyword-matching ones to the front, and
truncate at `sitemap_limit` (default 100). -/
def expand_from_sitemap (sitemap_limit : Nat) (locs : List CL) : List CL :=
  let all_urls := locs.filter (fun u => !u.isEmpty)
  let prioritized_urls := all_urls.filter sitemap_prioritized
  let result := prioritized_urls ++ all_urls.filter (fun u => !prioritized_urls.contains u)
  result.take sitemap_limit

/-! ## Email-scraper service: extractor validation (claim C5)

`EMAIL_RE = [a-zA-Z0-9_.+-]+@[a-zA-Z0-9-]+\.[a-zA-Z]{2,}(?:\.[a-zA-Z]{2,})*`
(email_scraper.py line 19).  No character class contains `@`, and `.` occurs
only as the literal label separator, so a full match decomposes uniquely:
exactly one `@`, a non-empty local part over the local class, and dot-split
domain labels whose first is over `[a-zA-Z0-9-]` and whose remaining ones
(at least one) are alphabetic of length ≥ 2. -/

/-- Local-part character class `[a-zA-Z0-9_.+-]`. -/
def isLocalChar (c : Char) : Bool :=
  c.isAlpha || c.isDigit || c == '_' || c == '.' || c == '+' || c == '-'

/-- First-domain-label character class `[a-zA-Z0-9-]`. -/
def isHostChar (c : Char) : Bool := c.isAlpha || c.isDigit || c == '-'

/-- Python `str.isdigit` (false on the empty string). -/
def pyIsDigitStr (s : CL) : Bool := !s.isEmpty && s.all Char.isDigit

/-- `EMAIL_RE.fullmatch` of email_scraper.py, by the unique-decomposition
characterization above. -/
def scraper_email_fullmatch (s : CL) : Bool :=
  match splitOnChar '@' s with
  | [local_part, domain] =>
    !local_part.isEmpty && local_part.all isLocalChar &&
    (match splitOnChar '.' domain with
     | first :: tail_labels =>
       !first.isEmpty && first.all isHostChar &&
       !tail_labels.isEmpty &&
       tail_labels.all (fun t => 2 ≤ t.length && t.all Char.isAlpha)
     | [] => false)
  | _ => false

/-- `EmailScraper.is_valid_email`: the regex full match plus the explicit
non-numeric-TLD and non-numeric-domain checks (`email.split('@')` must give
exactly two parts, the last dot-label must not be all digits, and the domain
with dots removed must not be all digits). -/
def is_valid_email (email : CL) : Bool :=
  scraper_email_fullmatch email &&
  (match splitOnChar '@' email with
   | [_, domain] =>
     let tld_parts := splitOnChar '.' domain
     !pyIsDigitStr (tld_parts.getLastD []) &&
     !pyIsDigitStr (domain.filter (· != '.'))
   | _ => false)

/-! ## Email-scraper service: `modules/ai_email_extractor.py` (claim C8)

Its `EMAIL_RE = [a-zA-Z0-9_.+-]+@[a-zA-Z0-9-]+\.[a-zA-Z0-9-.]+` is again
deterministic: each quantified class excludes the character that must follow
it, so matching is maximal munch and both `fullmatch` and `finditer` reduce
to the scanner below. -/

/-- Domain-tail character class `[a-zA-Z0-9-.]` of the extractor regex. -/
def isDomTailChar (c : Char) : Bool := c.isAlpha || c.isDigit || c == '-' || c == '.'

/-- Match of the extractor `EMAIL_RE` anchored at the start of `s`; returns
the matched text and the unconsumed rest. -/
def matchEmailAt (s : CL) : Option (CL × CL) :=
  let loc_run := s.takeWhile isLocalChar
  if loc_run.isEmpty then none else
  match s.drop loc_run.length with
  | '@' :: rest1 =>
    let host_run := rest1.takeWhile isHostChar
    if host_run.isEmpty then none else
    (match rest1.drop host_run.length with
     | '.' :: rest2 =>
       let tail_run := rest2.takeWhile isDomTailChar
       if tail_run.isEmpty then none
       else some (loc_run ++ '@' :: host_run ++ '.' :: tail_run, rest2.drop tail_run.length)
     | _ => none)
  | _ => none

/-- `EMAIL_RE.finditer`: scan left to right, emit non-overlapping matches,
resume after each match.  Each step consumes at least one character, so
`s.length` fuel is exact. -/
def find_iter_aux : Nat → CL → List CL
  | 0, _ => []
  | fuel + 1, s =>
    match matchEmailAt s with
    | some (m, rest) => m :: find_iter_aux fuel rest
    | none =>
      match s with
      | [] => []
      | _ :: t => find_iter_aux fuel t

/-- All matches of the extractor `EMAIL_RE` in `s`. -/
def find_iter (s : CL) : List CL := find_iter_aux s.length s

/-- `EMAIL_RE.fullmatch` of ai_email_extractor.py. -/
def ai_email_fullmatch (s : CL) : Bool :=
  match matchEmailAt s with
  | some (_, rest) => rest.isEmpty
  | none => false

/-- `AIEmailExtractor.is_valid_email_format`: the chain of guards of lines
47-106 (local-part and domain length bounds, ≥ 2 dot-labels, alphabetic TLD
of 2-6 characters, version-number rejection, at least one letter in the
domain, localhost/private-IP rejection, regex full match). -/
def is_valid_email_format (email : CL) : Bool :=
  if email.isEmpty || !email.contains '@' then false
  else
    let local_part := takeBeforeLast '@' email
    let domain := afterLast '@' email
    let email_lower := lowerCL email
    !local_part.isEmpty && local_part.length ≤ 64 &&
    !domain.isEmpty && domain.length ≤ 255 &&
    (let domain_parts := splitOnChar '.' domain
     2 ≤ domain_parts.length &&
     (let tld := lowerCL (domain_parts.getLastD [])
      2 ≤ tld.length &&
      (!tld.isEmpty && tld.all Char.isAlpha) &&
      tld.length ≤ 6 &&
      !(domain_parts.any pyIsDigitStr &&
        (2 < domain_parts.length &&
         domain_parts.any (fun p => p.length ≤ 3 && pyIsDigitStr p))) &&
      domain.any Char.isAlpha &&
      !containsSub (str "@localhost") email_lower &&
      !containsSub (str "@127.") email_lower &&
      !containsSub (str "@192.") email_lower &&
      !containsSub (str "@10.") email_lower &&
      ai_email_fullmatch email))

/-- `AIEmailExtractor.split_concatenated_emails`: every regex match that
passes format validation. -/
def split_concatenated_emails (text : CL) : List CL :=
  (find_iter text).filter is_valid_email_format

/-- `email.strip().rstrip('.').strip()` (line 152). -/
def ndd_clean (email : CL) : CL := pyStrip (rstripBy (· == '.') (pyStrip email))

/-- Python `s.count(c)`. -/
def countChar (c : Char) (s : CL) : Nat := (s.filter (· == c)).length

/-- Insertion step shared by both branches of
`normalize_and_deduplicate_emails`: the `seen_lower` set and the
insertion-ordered `normalized` dict are modeled as parallel lists (the dict
keys are exactly the members of `seen`, so values keep first-occurrence
order). -/
def ndd_insert (acc : List CL × List CL) (candidate : CL) : List CL × List CL :=
  let (seen, out) := acc
  let lower := lowerCL candidate
  if seen.contains lower then (seen, out) else (seen ++ [lower], out ++ [candidate])

/-- One iteration of the loop in
`AIEmailExtractor.normalize_and_deduplicate_emails`. -/
def normalize_and_deduplicate_step (acc : List CL × List CL) (email : CL) :
    List CL × List CL :=
  if email.isEmpty then acc
  else
    let e := ndd_clean email
    if 1 < countChar '@' e || 100 < e.length then
      (split_concatenated_emails e).foldl
        (fun acc se => if is_valid_email_format se then ndd_insert acc se else acc) acc
    else if !is_valid_email_format e then acc
    else ndd_insert acc e

/-- `AIEmailExtractor.normalize_and_deduplicate_emails`. -/
def normalize_and_deduplicate_emails (raw_emails : List CL) : List CL :=
  (raw_emails.foldl normalize_and_deduplicate_step ([], [])).2

/-- `AIEmailExtractor.extract_relevant_emails`, with the model/API call
replaced by its answer `ai_answer` (the collaborator's `relevant_emails`
list; the JSON-failure fallbacks return `[]` exactly like an empty answer
filters to `[]`).  The final loop validates each answer entry and accepts it
only when its lowercase form is a key of
`normalized_original = {e.lower(): e for e in normalized_emails}`; since the
normalized list carries pairwise distinct lowercase forms, that dict lookup
is the first (unique) match below. -/
def extract_relevant_emails (raw_emails : List CL) (ai_answer : List CL) : List CL :=
  if raw_emails.isEmpty then []
  else
    let normalized := normalize_and_deduplicate_emails raw_emails
    if normalized.isEmpty then []
    else
      ai_answer.foldl
        (fun acc email =>
          if !is_valid_email_format email then acc
          else
            match normalized.find? (fun n => lowerCL n == lowerCL email) with
            | some orig => acc ++ [orig]
            | none => acc)
        []

/-! ## Email-scraper service: `EmailProcessor.normalize_email` (claim C10) -/

/-- The Gmail local-part rules: drop the `+tag`, remove dots
(`local_part.split('+')[0]` then `.replace('.', '')`). -/
def gmail_local (l : CL) : CL := (takeBefore '+' l).filter (· != '.')

/-- `EmailProcessor.normalize_email`: strings without `@` are just
lowercased and stripped; otherwise split at the first `@`, apply the
Gmail/GoogleMail aliasing (the trailing `googlemail.com` renormalization of
lines 156-157 is kept even though the first branch already covers it), and
rejoin. -/
def normalize_email (x : CL) : CL :=
  if x.isEmpty || !x.contains '@' then pyStrip (lowerCL x)
  else
    let e := pyStrip (lowerCL x)
    let local_part := takeBefore '@' e
    let domain := dropPast '@' e
    let step1 :=
      if domain = str "gmail.com" ∨ domain = str "googlemail.com" then
        (gmail_local local_part, str "gmail.com")
      else (local_part, domain)
    let domain2 := if step1.2 = str "googlemail.com" then str "gmail.com" else step1.2
    step1.1 ++ '@' :: domain2

/-- Does the string start with Python whitespace? -/
def starts_with_space : CL → Bool
  | [] => false
  | c :: _ => isPySpace c

/-! ## Concrete instances used by the claim theorems -/

/-- A store already in the terminal email-scraping failure state. -/
def c1_store : EmailStore :=
  { status := "email_scraping_permanent_failure", emails := [], raw_emails := none,
    emails_found := 0, emails_scraped_at := none, email_scraping_last_error := some "boom",
    email_scraping_failed_at := some 3, updated_at := 3 }

/-- A `url_verified` store about to receive a failed-crawl result. -/
def c4_store : EmailStore :=
  { status := "url_verified", emails := [], raw_emails := none, emails_found := 0,
    emails_scraped_at := none, email_scraping_last_error := none,
    email_scraping_failed_at := none, updated_at := 1 }

/-- An unclaimed store two workers race for. -/
def c7_store : UrlStore :=
  { status := "pending_url", base_url := none, updated_at := 50, url_finding_attempts := 0,
    url_confidence := none, url_finding_provider := none, url_finding_error := none }

/-- A pending store entering URL resolution. -/
def c2_store : UrlStore :=
  { status := "pending_url", base_url := none, updated_at := 0, url_finding_attempts := 0,
    url_confidence := none, url_finding_provider := none, url_finding_error := none }

/-- A provider answer with confidence 0.55 and no alternative candidates. -/
def c2_mid_result : FallbackResult :=
  { success := true, url := some "https://store.example", confidence := some (11/20),
    provider := some "gemini", reasoning := "", results := [], error := none }

/-- A server that answers 429 (without a Retry-After header) to every
request. -/
def all_429_oracle : Nat → Resp := fun _ => .tooMany none

/-- A session state whose circuit breaker is open. -/
def c3_open_state : ScraperState :=
  { base_delay := 1/2, current_delay := 60, consecutive_429_count := 5,
    circuit_open := true }

/-- A session state one 429 away from the breaker threshold. -/
def c3_cnt4_state : ScraperState :=
  { base_delay := 1/2, current_delay := 8, consecutive_429_count := 4,
    circuit_open := false }

/-- A provider answer with confidence 0.8. -/
def c2_high_result : FallbackResult :=
  { success := true, url := some "https://store.example", confidence := some (4/5),
    provider := some "gemini", reasoning := "", results := [], error := none }

/-! ## Claim theorems -/

/-- C1: for a store whose status is `email_scraping_permanent_failure`, any
subsequent `update_store_emails` call (whatever emails, raw emails and
scraping error it carries) leaves the status unchanged, while the email
list, raw-email list, `emails_found` counter and scrape timestamp are still
written. -/
theorem C1_permanent_failure_status_monotonic (s : EmailStore) (now : Nat)
    (emails : List String) (raw_emails : Option (List String))
    (scraping_error : Option String)
    (h : s.status = "email_scraping_permanent_failure") :
    (update_store_emails s now emails raw_emails scraping_error).status = s.status ∧
    (update_store_emails s now emails raw_emails scraping_error).emails = emails ∧
    (update_store_emails s now emails raw_emails scraping_error).raw_emails =
      (if pyTruthyList raw_emails then raw_emails else none) ∧
    (update_store_emails s now emails raw_emails scraping_error).emails_found =
      emails.length ∧
    (update_store_emails s now emails raw_emails scraping_error).emails_scraped_at =
      some now := by
  simp [update_store_emails, h]

theorem C1_witness :
    c1_store.status = "email_scraping_permanent_failure" ∧
    (update_store_emails c1_store 9 ["sales@shop.com"] (some ["sales@shop.com"])
      none).status = c1_store.status ∧
    (update_store_emails c1_store 9 ["sales@shop.com"] (some ["sales@shop.com"])
      none).emails = ["sales@shop.com"] :=
  ⟨rfl,
   (C1_permanent_failure_status_monotonic c1_store 9 ["sales@shop.com"]
     (some ["sales@shop.com"]) none rfl).1,
   (C1_permanent_failure_status_monotonic c1_store 9 ["sales@shop.com"]
     (some ["sales@shop.com"]) none rfl).2.1⟩

/-- C4 counterexample: a `url_verified` store whose crawl discovered zero
pages is recorded through `update_store_emails` with a scraping error, and
its status stays `url_verified` — it does not become
`email_scraping_failed` (the state the claim requires). -/
theorem C4_counterexample :
    (scrape_emails_for_store c4_store 9 [] ⟨0, 0, 0, 0⟩ id).status = "url_verified" ∧
    (scrape_emails_for_store c4_store 9 [] ⟨0, 0, 0, 0⟩ id).status ≠
      "email_scraping_failed" := by
  decide

/-- C4 (amended): for every store in status `url_verified` whose crawl could
not proceed at all (zero pages discovered, all discovered pages failed, or
zero pages successfully fetched, with no raw emails), the recorded outcome
keeps the store in status `url_verified` (the state from which it remains
eligible for another scraping pass) — as opposed to `emails_found`,
`no_emails_found`, or the never-assigned `email_scraping_failed`. -/
theorem C4_total_failure_keeps_url_verified (s : EmailStore) (now : Nat)
    (stats : CrawlStats) (ai_filter : List String → List String)
    (hst : s.status = "url_verified")
    (hfail : stats.pages_discovered = 0 ∨ stats.pages_failed = stats.pages_discovered ∨
      stats.pages_scraped = 0) :
    (scrape_emails_for_store s now [] stats ai_filter).status = "url_verified" := by
  have herr : pyTruthyStr (compute_scraping_error [] stats) = true := by
    unfold compute_scraping_error
    by_cases h1 : stats.pages_discovered = 0
    · simp [h1, pyTruthyStr]
    · by_cases h2 : stats.pages_failed = stats.pages_discovered
      · have hne : ("All " ++ toString stats.pages_discovered ++ " pages failed") ≠ "" := by
          simp [String.ext_iff, String.data_append]
        simp [h1, h2, pyTruthyStr, hne]
      · have h3 : stats.pages_scraped = 0 := by tauto
        simp [h1, h2, h3, pyTruthyStr]
  unfold scrape_emails_for_store
  simp only [List.isEmpty_nil, Bool.not_true, if_neg, ite_false, Bool.false_eq_true]
  unfold update_store_emails
  simp [hst, herr]

theorem C4_witness :
    c4_store.status = "url_verified" ∧
    (scrape_emails_for_store c4_store 9 [] ⟨3, 0, 3, 0⟩ id).status = "url_verified" :=
  ⟨rfl, C4_total_failure_keeps_url_verified c4_store 9 ⟨3, 0, 3, 0⟩ id rfl
    (Or.inr (Or.inl rfl))⟩

/-- C6: the stale-lock sweep `unlock_stuck_stores` matches a store that has
been `processing` for longer than the timeout, but — because of the
`CASE WHEN base_url ...` expression — keeps its status `processing` whenever
`base_url` is non-empty, merely refreshing `updated_at` (which even resets
the staleness clock); the row is still counted in the returned "unlocked"
rowcount.  This contradicts the claimed force-release. -/
theorem C6_sweep_keeps_processing_lock :
    (unlock_stuck_store_row 31 30 c6_stuck_store).status = "processing" ∧
    (unlock_stuck_store_row 31 30 c6_stuck_store).updated_at = 31 ∧
    (unlock_stuck_stores 31 30 [c6_stuck_store]).1.map UrlStore.status = ["processing"] ∧
    (unlock_stuck_stores 31 30 [c6_stuck_store]).2 = 1 := by
  decide

/-- C7: two workers racing to claim the same store row via the atomic
conditional transition of `lock_store_for_processing` (serialized by the
row lock): the first attempt on a claimable row succeeds and marks it
`processing`; the second attempt, arriving within the 30-minute staleness
window, fails. -/
theorem C7_lock_exclusivity (s : UrlStore) (t1 t2 : Nat)
    (h1 : s.status ≠ "processing" ∨ s.updated_at + 30 < t1)
    (h2 : t2 ≤ t1 + 30) :
    (lock_store_for_processing s t1).1 = true ∧
    (lock_store_for_processing s t1).2.status = "processing" ∧
    (lock_store_for_processing (lock_store_for_processing s t1).2 t2).1 = false := by
  unfold lock_store_for_processing
  rw [if_pos h1]
  refine ⟨rfl, rfl, ?_⟩
  rw [if_neg]
  simp only [not_or, not_not, not_lt]
  exact ⟨by simp, by simpa using h2⟩

/-- C2 counterexample: a resolution with confidence 0.55 — inside the
claimed `needs_review` band [0.5, 0.7) — whose URL fails live validation
with no alternative candidates is marked `not_found` by `process_store`,
contradicting the claim that the mid band always yields `needs_review` and
never `not_found`. -/
theorem C2_counterexample :
    process_store c2_store 3 "Acme" c2_mid_result true (fun _ => false) id (7/10) (1/2)
      = Except.ok ("not_found",
          mark_store_not_found c2_store 3 (some "URL validation failed") (some "gemini")) ∧
    (mark_store_not_found c2_store 3 (some "URL validation failed")
      (some "gemini")).status = "not_found" ∧
    ((1:ℚ)/2 ≤ 11/20 ∧ (11/20:ℚ) < 7/10) := by
  have hname : ¬ pyStrip (str "Acme") = [] := by decide
  have hsave : should_auto_save (some (11/20)) (7/10) (7/10) = false := by
    simp only [should_auto_save]
    norm_num
  refine ⟨?_, by simp [mark_store_not_found], by norm_num, by norm_num⟩
  simp [process_store, c2_mid_result, hname, hsave]

/-- C2 (amended): confidence-band classification as implemented.  With the
primary URL validated (or validation disabled): confidence ≥ 0.7 saves the
URL with status `url_verified`, and confidence below 0.5 marks `not_found`.
With validation enabled and failing on the primary URL and on every tried
alternative candidate: any confidence below 0.7 — including the whole
[0.5, 0.7) band — marks `not_found`.  Every branch that would mark
`needs_review` (the [0.5, 0.7) band with a validated URL, and ≥ 0.7 with
validation failed on all candidates) instead raises `AttributeError` —
`Database.save_store_candidate_urls` does not exist — before any
`needs_review` status is written, so `process_store` never returns the
`needs_review` action at all. -/
theorem C2_confidence_bands (s : UrlStore) (now : Nat) (store_name : String)
    (r : FallbackResult) (validation_on : Bool) (validate : String → Bool)
    (clean_url : String → String) (u : String) (c : ℚ)
    (hname : pyStrip (str store_name) ≠ [])
    (hsucc : r.success = true) (hurl : r.url = some u) (hu : u ≠ "")
    (hconf : r.confidence = some c) :
    ((validation_on = false ∨ validate u = true) →
      (((7:ℚ)/10 ≤ c →
        process_store s now store_name r validation_on validate clean_url (7/10) (1/2)
          = Except.ok ("saved",
              update_store_url s now (clean_url u) (some c) r.provider) ∧
        (update_store_url s now (clean_url u) (some c) r.provider).status
          = "url_verified") ∧
       ((1:ℚ)/2 ≤ c → c < 7/10 →
        process_store s now store_name r validation_on validate clean_url (7/10) (1/2)
          = Except.error save_store_candidate_urls_missing) ∧
       (c < 1/2 →
        process_store s now store_name r validation_on validate clean_url (7/10) (1/2)
          = Except.ok ("not_found",
              mark_store_not_found s now (some "Very low confidence") r.provider) ∧
        (mark_store_not_found s now (some "Very low confidence") r.provider).status
          = "not_found"))) ∧
    (validation_on = true → validate u = false →
      (∀ cu ∈ r.results.take 5, cu ≠ "" → cu ≠ u → validate cu = false) →
      (((7:ℚ)/10 ≤ c →
        process_store s now store_name r validation_on validate clean_url (7/10) (1/2)
          = Except.error save_store_candidate_urls_missing) ∧
       (c < 7/10 →
        process_store s now store_name r validation_on validate clean_url (7/10) (1/2)
          = Except.ok ("not_found",
              mark_store_not_found s now (some "URL validation failed") r.provider) ∧
        (mark_store_not_found s now (some "URL validation failed") r.provider).status
          = "not_found"))) ∧
    (∀ act st', process_store s now store_name r validation_on validate clean_url
        (7/10) (1/2) = Except.ok (act, st') → act ≠ "needs_review") := by
  have h70 : ((7:ℚ)/10) ≠ 0 := by norm_num
  refine ⟨?_, ?_, ?_⟩
  · -- primary URL validated (or validation disabled)
    intro hval
    have hred : process_store s now store_name r validation_on validate clean_url
        (7/10) (1/2)
        = (if should_auto_save (some c) (7/10) (7/10) = true then
            Except.ok ("saved",
              update_store_url s now (clean_url u) (some c) r.provider)
          else if (1:ℚ)/2 ≤ c then Except.error save_store_candidate_urls_missing
          else Except.ok ("not_found",
            mark_store_not_found s now (some "Very low confidence") r.provider)) := by
      rcases hval with hv | hv <;>
        simp [process_store, hname, hsucc, hurl, hu, hconf, hv]
    refine ⟨?_, ?_, ?_⟩
    · intro hband
      have hsave : should_auto_save (some c) (7/10) (7/10) = true := by
        simp [should_auto_save, h70, hband]
      rw [hred, if_pos hsave]
      exact ⟨rfl, rfl⟩
    · intro hlow hhigh
      have hsave : should_auto_save (some c) (7/10) (7/10) = false := by
        simp [should_auto_save, h70, not_le.mpr hhigh]
      rw [hred, if_neg (by simp [hsave]), if_pos hlow]
    · intro hvlow
      have hsave : should_auto_save (some c) (7/10) (7/10) = false := by
        have hn : ¬ (7:ℚ)/10 ≤ c := by linarith
        simp [should_auto_save, h70, hn]
      rw [hred, if_neg (by simp [hsave]), if_neg (not_le.mpr hvlow)]
      exact ⟨rfl, rfl⟩
  · -- validation enabled, primary URL and all tried alternatives fail
    intro hvon hvu halt
    have hfind : (r.results.take 5).find?
        (fun cu => cu != "" && cu != u && validate cu) = none := by
      rw [List.find?_eq_none]
      intro x hx
      simp only [Bool.and_eq_true, bne_iff_ne, not_and]
      rintro ⟨hne1, hne2⟩
      simp [halt x hx hne1 hne2]
    have hred : process_store s now store_name r validation_on validate clean_url
        (7/10) (1/2)
        = (if should_auto_save (some c) (7/10) (7/10) = true then
            Except.error save_store_candidate_urls_missing
          else Except.ok ("not_found",
            mark_store_not_found s now (some "URL validation failed") r.provider)) := by
      simp [process_store, hname, hsucc, hurl, hu, hconf, hvon, hvu, hfind]
    constructor
    · intro hband
      have hsave : should_auto_save (some c) (7/10) (7/10) = true := by
        simp [should_auto_save, h70, hband]
      rw [hred, if_pos hsave]
    · intro hnotband
      have hsave : should_auto_save (some c) (7/10) (7/10) = false := by
        simp [should_auto_save, h70, not_le.mpr hnotband]
      rw [hred, if_neg (by simp [hsave])]
      exact ⟨rfl, rfl⟩
  · -- every successful return carries action "saved" or "not_found"
    intro act st' hps
    by_cases hv : validation_on = true ∧ validate u = false
    · rcases hfind2 : (r.results.take 5).find?
          (fun cu => cu != "" && cu != u && validate cu) with _ | alt
      · have hred : process_store s now store_name r validation_on validate clean_url
            (7/10) (1/2)
            = (if should_auto_save (some c) (7/10) (7/10) = true then
                Except.error save_store_candidate_urls_missing
              else Except.ok ("not_found",
                mark_store_not_found s now (some "URL validation failed") r.provider)) := by
          simp [process_store, hname, hsucc, hurl, hu, hconf, hv.1, hv.2, hfind2]
        rw [hred] at hps
        by_cases hsv : should_auto_save (some c) (7/10) (7/10) = true
        · rw [if_pos hsv] at hps
          cases hps
        · rw [if_neg hsv] at hps
          simp only [Except.ok.injEq, Prod.mk.injEq] at hps
          rw [← hps.1]
          decide
      · have halt2 := List.find?_some hfind2
        simp only [Bool.and_eq_true, bne_iff_ne] at halt2
        have hb1 : (alt != "") = true := bne_iff_ne.mpr halt2.1.1
        have hb2 : (alt != u) = true := bne_iff_ne.mpr halt2.1.2
        by_cases hc0 : c = 0
        · have hred : process_store s now store_name r validation_on validate clean_url
              (7/10) (1/2)
              = (if should_auto_save (some c) (7/10) (7/10) = true then
                  Except.ok ("saved",
                    update_store_url s now (clean_url alt) (some c) r.provider)
                else if (1:ℚ)/2 ≤ c then Except.error save_store_candidate_urls_missing
                else Except.error save_store_candidate_urls_missing) := by
            simp [process_store, hname, hsucc, hurl, hu, hconf, hv.1, hv.2, hfind2,
              hc0, hb1, hb2]
          rw [hred] at hps
          by_cases hsv : should_auto_save (some c) (7/10) (7/10) = true
          · rw [if_pos hsv] at hps
            simp only [Except.ok.injEq, Prod.mk.injEq] at hps
            rw [← hps.1]
            decide
          · rw [if_neg hsv] at hps
            by_cases hmid : (1:ℚ)/2 ≤ c
            · rw [if_pos hmid] at hps
              cases hps
            · rw [if_neg hmid] at hps
              cases hps
        · have hred : process_store s now store_name r validation_on validate clean_url
              (7/10) (1/2)
              = (if should_auto_save (some (max 0 (c - 1/10))) (7/10) (7/10) = true then
                  Except.ok ("saved", update_store_url s now (clean_url alt)
                    (some (max 0 (c - 1/10))) r.provider)
                else if (1:ℚ)/2 ≤ max 0 (c - 1/10) then
                  Except.error save_store_candidate_urls_missing
                else Except.error save_store_candidate_urls_missing) := by
            simp [process_store, hname, hsucc, hurl, hu, hconf, hv.1, hv.2, hfind2,
              hc0, hb1, hb2]
          rw [hred] at hps
          by_cases hsv : should_auto_save (some (max 0 (c - 1/10))) (7/10) (7/10) = true
          · rw [if_pos hsv] at hps
            simp only [Except.ok.injEq, Prod.mk.injEq] at hps
            rw [← hps.1]
            decide
          · rw [if_neg hsv] at hps
            by_cases hmid : (1:ℚ)/2 ≤ max 0 (c - 1/10)
            · rw [if_pos hmid] at hps
              cases hps
            · rw [if_neg hmid] at hps
              cases hps
    · have hval : validation_on = false ∨ validate u = true := by
        rcases Bool.eq_false_or_eq_true validation_on with hb | hb
        · right
          by_contra hvv
          exact hv ⟨hb, by revert hvv; cases validate u <;> simp⟩
        · exact Or.inl hb
      have hred : process_store s now store_name r validation_on validate clean_url
          (7/10) (1/2)
          = (if should_auto_save (some c) (7/10) (7/10) = true then
              Except.ok ("saved",
                update_store_url s now (clean_url u) (some c) r.provider)
            else if (1:ℚ)/2 ≤ c then Except.error save_store_candidate_urls_missing
            else Except.ok ("not_found",
              mark_store_not_found s now (some "Very low confidence") r.provider)) := by
        rcases hval with hvv | hvv <;>
          simp [process_store, hname, hsucc, hurl, hu, hconf, hvv]
      rw [hred] at hps
      by_cases hsv : should_auto_save (some c) (7/10) (7/10) = true
      · rw [if_pos hsv] at hps
        simp only [Except.ok.injEq, Prod.mk.injEq] at hps
        rw [← hps.1]
        decide
      · rw [if_neg hsv] at hps
        by_cases hmid : (1:ℚ)/2 ≤ c
        · rw [if_pos hmid] at hps
          cases hps
        · rw [if_neg hmid] at hps
          simp only [Except.ok.injEq, Prod.mk.injEq] at hps
          rw [← hps.1]
          decide

theorem C2_witness :
    pyStrip (str "Acme") ≠ [] ∧ ((7:ℚ)/10 ≤ 4/5) ∧
    process_store c2_store 3 "Acme" c2_high_result false (fun _ => true) id (7/10) (1/2)
      = Except.ok ("saved",
          update_store_url c2_store 3 "https://store.example" (some (4/5))
            (some "gemini")) ∧
    (update_store_url c2_store 3 "https://store.example" (some (4/5))
      (some "gemini")).status = "url_verified" :=
  ⟨by decide, by norm_num,
   (((C2_confidence_bands c2_store 3 "Acme" c2_high_result false (fun _ => true) id
       "https://store.example" (4/5) (by decide) rfl rfl (by decide) rfl).1
     (Or.inl rfl)).1 (by norm_num)).1,
   (((C2_confidence_bands c2_store 3 "Acme" c2_high_result false (fun _ => true) id
       "https://store.example" (4/5) (by decide) rfl rfl (by decide) rfl).1
     (Or.inl rfl)).1 (by norm_num)).2⟩

/-- Helper: the `getLastD` of a non-empty list is one of its elements. -/
theorem getLastD_cons_self_mem {α : Type} :
    ∀ (l : List α) (a d : α), (a :: l).getLastD d ∈ a :: l := by
  intro l
  induction l with
  | nil => intro a d; simp
  | cons b t ih =>
    intro a d
    rw [List.getLastD_cons]
    exact List.mem_cons_of_mem a (ih b a)

/-- C5 counterexample: `is_valid_email` accepts `user@example.website`
(top-level label of 7 characters, outside the claimed 2-6 bound) and a
65-character local part (outside the claimed 1-64 bound); neither upper
bound exists in `EMAIL_RE` or `is_valid_email`. -/
theorem C5_counterexample :
    is_valid_email (str "user@example.website") = true ∧
    (splitOnChar '.' (afterLast '@' (str "user@example.website"))).getLastD []
      = str "website" ∧
    (str "website").length = 7 ∧
    is_valid_email (List.replicate 65 'a' ++ str "@example.com") = true ∧
    (takeBefore '@' (List.replicate 65 'a' ++ str "@example.com")).length = 65 := by
  decide

/-- C5 (amended): every email accepted by `is_valid_email` splits at a
unique `@` into a non-empty local part over `[a-zA-Z0-9_.+-]` and a domain
with at least 2 dot-labels whose top-level label is alphabetic with at
least 2 characters, and the domain is not purely numeric (so `user@2.3.44`
is rejected and `user@example.com` accepted); conversely any candidate
violating these conditions is rejected.  No 64-character cap on the local
part and no 6-character cap on the top-level label is enforced. -/
theorem C5_validation_bounds (e : CL) (h : is_valid_email e = true) :
    ∃ local_part domain, splitOnChar '@' e = [local_part, domain] ∧
      1 ≤ local_part.length ∧ local_part.all isLocalChar = true ∧
      2 ≤ (splitOnChar '.' domain).length ∧
      ((splitOnChar '.' domain).getLastD []).all Char.isAlpha = true ∧
      2 ≤ ((splitOnChar '.' domain).getLastD []).length ∧
      pyIsDigitStr (domain.filter (· != '.')) = false := by
  unfold is_valid_email scraper_email_fullmatch at h
  rcases hsp : splitOnChar '@' e with _ | ⟨l, _ | ⟨d, _ | ⟨z, zs⟩⟩⟩ <;> rw [hsp] at h
  · simp at h
  · simp at h
  · dsimp only at h
    refine ⟨l, d, rfl, ?_⟩
    rcases hlab : splitOnChar '.' d with _ | ⟨first, tail⟩ <;> rw [hlab] at h
    · simp at h
    dsimp only at h
    simp only [Bool.and_eq_true, Bool.not_eq_true', List.all_eq_true,
      List.isEmpty_eq_false] at h
    obtain ⟨⟨⟨hl, hlchars⟩, ⟨hfirst, hne⟩, htail⟩, hnd1, hnd2⟩ := h
    rcases tail with _ | ⟨t, ts⟩
    · exact absurd rfl hne
    have hmem : (first :: t :: ts).getLastD [] ∈ t :: ts := by
      rw [List.getLastD_cons]
      exact getLastD_cons_self_mem ts t first
    have htl := htail _ hmem
    refine ⟨List.length_pos.mpr hl, List.all_eq_true.mpr hlchars, by simp, ?_, ?_, ?_⟩
    · exact List.all_eq_true.mpr htl.2
    · exact of_decide_eq_true htl.1
    · exact hnd2
  · simp at h

theorem C5_witness :
    is_valid_email (str "user@example.com") = true ∧
    is_valid_email (str "user@2.3.44") = false ∧
    (∃ local_part domain,
      splitOnChar '@' (str "user@example.com") = [local_part, domain] ∧
      1 ≤ local_part.length ∧ local_part.all isLocalChar = true ∧
      2 ≤ (splitOnChar '.' domain).length ∧
      ((splitOnChar '.' domain).getLastD []).all Char.isAlpha = true ∧
      2 ≤ ((splitOnChar '.' domain).getLastD []).length ∧
      pyIsDigitStr (domain.filter (· != '.')) = false) :=
  ⟨by decide, by decide, C5_validation_bounds (str "user@example.com") (by decide)⟩

/-- Helper for C8: the filtering fold of `extract_relevant_emails` only ever
appends elements found inside `normalized`. -/
theorem relevant_foldl_subset (normalized : List CL) (l : List CL) :
    ∀ (acc : List CL), (∀ y ∈ acc, y ∈ normalized) →
      ∀ x ∈ l.foldl
        (fun acc email =>
          if !is_valid_email_format email then acc
          else
            match normalized.find? (fun n => lowerCL n == lowerCL email) with
            | some orig => acc ++ [orig]
            | none => acc) acc,
      x ∈ normalized := by
  induction l with
  | nil => intro acc hacc x hx; exact hacc x hx
  | cons e rest ih =>
    intro acc hacc x hx
    rw [List.foldl_cons] at hx
    refine ih _ ?_ x hx
    intro y hy
    by_cases hval : is_valid_email_format e = true
    · rw [hval] at hy
      simp only [Bool.not_true, Bool.false_eq_true, if_false] at hy
      rcases hf : normalized.find? (fun n => lowerCL n == lowerCL e) with _ | orig <;>
        rw [hf] at hy
      · exact hacc y hy
      · rcases List.mem_append.mp hy with hya | hyo
        · exact hacc y hya
        · rw [List.mem_singleton.mp hyo]
          exact List.mem_of_find?_eq_some hf
    · rw [Bool.not_eq_true] at hval
      rw [hval] at hy
      simp only [Bool.not_false, if_true] at hy
      exact hacc y hy

/-- C8: every string in the `emails` list returned by
`extract_relevant_emails` is a member of the normalized-and-deduplicated
form of `raw_emails` — whatever list the AI collaborator answers, entries
not (case-insensitively) present in that input-derived list are rejected —
so accepted emails are always a subset, after normalization, of the raw
emails. -/
theorem C8_accepted_subset_of_normalized (raw_emails ai_answer : List CL) (x : CL)
    (hx : x ∈ extract_relevant_emails raw_emails ai_answer) :
    x ∈ normalize_and_deduplicate_emails raw_emails := by
  unfold extract_relevant_emails at hx
  by_cases h1 : raw_emails.isEmpty = true
  · rw [if_pos h1] at hx
    exact absurd hx (List.not_mem_nil x)
  · rw [if_neg h1] at hx
    by_cases h2 : (normalize_and_deduplicate_emails raw_emails).isEmpty = true
    · rw [if_pos h2] at hx
      exact absurd hx (List.not_mem_nil x)
    · rw [if_neg h2] at hx
      exact relevant_foldl_subset _ ai_answer [] (by simp) x hx

theorem C8_witness :
    str "Info@Shop.com" ∈
      extract_relevant_emails [str "Info@Shop.com"] [str "INFO@SHOP.COM"] ∧
    str "Info@Shop.com" ∈ normalize_and_deduplicate_emails [str "Info@Shop.com"] :=
  ⟨by decide,
   C8_accepted_subset_of_normalized [str "Info@Shop.com"] [str "INFO@SHOP.COM"]
     (str "Info@Shop.com") (by decide)⟩

/-- C9: whatever `<loc>` entries a sitemap contains, `expand_from_sitemap`
returns at most `sitemap_limit` URLs, and the returned list splits into a
keyword-matching block followed by a block with no keyword match — every
contact/about/policy/legal-style keyword URL precedes every non-matching
URL. -/
theorem C9_sitemap_cap_and_keyword_priority (sitemap_limit : Nat) (locs : List CL) :
    (expand_from_sitemap sitemap_limit locs).length ≤ sitemap_limit ∧
    ∃ a b, expand_from_sitemap sitemap_limit locs = a ++ b ∧
      (∀ u ∈ a, sitemap_prioritized u = true) ∧
      (∀ u ∈ b, sitemap_prioritized u = false) := by
  constructor
  · simp only [expand_from_sitemap, List.length_take]
    exact inf_le_left
  · simp only [expand_from_sitemap]
    refine ⟨_, _, List.take_append_eq_append_take, ?_, ?_⟩
    · intro x hx
      exact List.of_mem_filter (List.mem_of_mem_take hx)
    · intro x hx
      have h1 := List.mem_filter.mp (List.mem_of_mem_take hx)
      by_contra hp
      have hp' : sitemap_prioritized x = true := by
        revert hp
        cases sitemap_prioritized x <;> simp
      have hx2 : x ∈ (locs.filter (fun u => !u.isEmpty)).filter sitemap_prioritized :=
        List.mem_filter.mpr ⟨h1.1, hp'⟩
      have h2 := h1.2
      simp only [Bool.not_eq_true'] at h2
      exact absurd (List.elem_eq_true_of_mem hx2) (by simpa using h2)

/-- C3 counterexample: against a server answering 429 to every request (with
`max_retries = 3` and the constructor defaults), the discovery-phase
`get_page` sequence reaches its 5th consecutive 429 during the second call
(the homepage fetch) and the circuit opens — yet the discovery sequence goes
on to issue five further HTTP requests (one per high-value page, 10 requests
in total): when entered with the circuit open, `get_page` merely waits,
closes the circuit, and fetches again.  So fetches are still issued for the
session after the breaker opens, contradicting the claim for discovery-phase
fetches. -/
theorem C3_counterexample :
    (get_page 3 all_429_oracle
        (get_page 3 all_429_oracle initial_scraper_state 0).2.1
        (get_page 3 all_429_oracle initial_scraper_state 0).2.2).2.1.circuit_open
      = true ∧
    (get_page 3 all_429_oracle
        (get_page 3 all_429_oracle initial_scraper_state 0).2.1
        (get_page 3 all_429_oracle initial_scraper_state 0).2.2).2.2 = 5 ∧
    (discover_pages_fetches 3 all_429_oracle initial_scraper_state 0).2 = 10 := by
  refine ⟨?_, ?_, ?_⟩ <;>
    simp [discover_pages_fetches, discover_high_value_fetches, get_page, get_page_loop,
      handle_rate_limit, initial_scraper_state, all_429_oracle]

/-- C3 (amended): the breaker itself is faithful to the claim inside the
main scraping loop — `_handle_rate_limit` opens the circuit as soon as the
consecutive-429 counter reaches 5, and once the circuit is open the
page-scraping loop of `scrape_emails` issues no further request (the fetch
index and page counters are unchanged) for any remaining queue.  Only
`get_page` calls made outside that loop (discovery) can still fetch, per the
counterexample. -/
theorem C3_circuit_threshold_and_loop_stop :
    (∀ (ra : Option ℚ) (st : ScraperState), 4 ≤ st.consecutive_429_count →
      (handle_rate_limit ra st).2.circuit_open = true) ∧
    (∀ (max_retries : Nat) (oracle : Nat → Resp) (norm : String → String)
        (queue visited : List String) (st : ScraperState) (k : Nat) (stats : LoopStats),
      st.circuit_open = true →
      scrape_pages_loop max_retries oracle norm queue visited st k stats
        = (st, k, stats)) := by
  constructor
  · intro ra st hcnt
    simp only [handle_rate_limit]
    rw [if_pos (by omega)]
  · intro max_retries oracle norm queue
    induction queue with
    | nil => intro visited st k stats _; rfl
    | cons u rest ih =>
      intro visited st k stats hopen
      by_cases hv : norm u ∈ visited
      · simp only [scrape_pages_loop, if_pos hv]
        exact ih visited st k stats hopen
      · simp only [scrape_pages_loop, if_neg hv, hopen, if_true]

theorem C3_witness :
    4 ≤ c3_cnt4_state.consecutive_429_count ∧
    (handle_rate_limit none c3_cnt4_state).2.circuit_open = true ∧
    c3_open_state.circuit_open = true ∧
    scrape_pages_loop 3 all_429_oracle id ["https://x/a", "https://x/b"] []
      c3_open_state 7 ⟨0, 0⟩ = (c3_open_state, 7, ⟨0, 0⟩) :=
  ⟨by decide,
   C3_circuit_threshold_and_loop_stop.1 none c3_cnt4_state (by decide),
   rfl,
   C3_circuit_threshold_and_loop_stop.2 3 all_429_oracle id
     ["https://x/a", "https://x/b"] [] c3_open_state 7 ⟨0, 0⟩ rfl⟩

/-! ### Helper lemmas about the Python string primitives (used for C10) -/

theorem char_toNat_ofNat_valid {n : Nat} (h : n < 55296) : (Char.ofNat n).toNat = n := by
  have hv : n.isValidChar := Or.inl h
  simp only [Char.ofNat, hv, dite_true, dif_pos]
  simp [Char.ofNatAux, Char.toNat, UInt32.toNat, BitVec.toNat_ofNat]

theorem lowerChar_idem (c : Char) : lowerChar (lowerChar c) = lowerChar c := by
  unfold lowerChar
  by_cases h : 65 ≤ c.toNat ∧ c.toNat ≤ 90
  · rw [if_pos h]
    have ht : (Char.ofNat (c.toNat + 32)).toNat = c.toNat + 32 :=
      char_toNat_ofNat_valid (by omega)
    rw [if_neg (by rw [ht]; omega)]
  · rw [if_neg h, if_neg h]

theorem lowerChar_at (c : Char) (h : lowerChar c = '@') : c = '@' := by
  unfold lowerChar at h
  by_cases hc : 65 ≤ c.toNat ∧ c.toNat ≤ 90
  · rw [if_pos hc] at h
    have ht := congrArg Char.toNat h
    rw [char_toNat_ofNat_valid (by omega)] at ht
    have h64 : Char.toNat '@' = 64 := rfl
    omega
  · rwa [if_neg hc] at h

theorem map_id_of_fixed (f : Char → Char) :
    ∀ (s : CL), (∀ c ∈ s, f c = c) → s.map f = s
  | [], _ => rfl
  | a :: t, h => by
    simp only [List.map_cons, h a (by simp)]
    rw [map_id_of_fixed f t (fun c hc => h c (List.mem_cons_of_mem a hc))]

theorem mem_of_mem_rstripBy {p : Char → Bool} {c : Char} {s : CL}
    (h : c ∈ rstripBy p s) : c ∈ s := by
  unfold rstripBy at h
  rw [List.mem_reverse] at h
  exact List.mem_reverse.mp ((List.dropWhile_sublist p).subset h)

theorem mem_of_mem_pyStrip {c : Char} {s : CL} (h : c ∈ pyStrip s) : c ∈ s :=
  (List.dropWhile_sublist isPySpace).subset (mem_of_mem_rstripBy h)

theorem lowerChar_fixed_of_mem_lowerCL {c : Char} {x : CL} (h : c ∈ lowerCL x) :
    lowerChar c = c := by
  obtain ⟨b, _, rfl⟩ := List.mem_map.mp h
  exact lowerChar_idem b

theorem lowerCL_pyStrip_lowerCL (x : CL) :
    lowerCL (pyStrip (lowerCL x)) = pyStrip (lowerCL x) :=
  map_id_of_fixed _ _ (fun _ hc => lowerChar_fixed_of_mem_lowerCL (mem_of_mem_pyStrip hc))

theorem dropWhile_idem (p : Char → Bool) :
    ∀ (s : CL), (s.dropWhile p).dropWhile p = s.dropWhile p
  | [] => rfl
  | a :: t => by
    by_cases h : p a = true
    · rw [List.dropWhile_cons, if_pos h]
      exact dropWhile_idem p t
    · rw [List.dropWhile_cons, if_neg h, List.dropWhile_cons, if_neg h]

theorem rstripBy_idem (p : Char → Bool) (s : CL) :
    rstripBy p (rstripBy p s) = rstripBy p s := by
  unfold rstripBy
  rw [List.reverse_reverse, dropWhile_idem]

theorem dropWhile_shape (p : Char → Bool) :
    ∀ (s : CL), s.dropWhile p = [] ∨ ∃ a t, s.dropWhile p = a :: t ∧ p a = false
  | [] => Or.inl rfl
  | a :: t => by
    by_cases h : p a = true
    · rw [List.dropWhile_cons, if_pos h]
      exact dropWhile_shape p t
    · rw [List.dropWhile_cons, if_neg h]
      exact Or.inr ⟨a, t, rfl, by revert h; cases p a <;> simp⟩

theorem rstripBy_cons_of_false (p : Char → Bool) (a : Char) (t : CL)
    (h : p a = false) : ∃ u, rstripBy p (a :: t) = a :: u := by
  unfold rstripBy
  rw [show (a :: t).reverse = t.reverse ++ [a] by simp, List.dropWhile_append]
  by_cases he : (t.reverse.dropWhile p).isEmpty = true
  · rw [if_pos he]
    exact ⟨[], by simp [List.dropWhile_cons, h]⟩
  · rw [if_neg he]
    exact ⟨(t.reverse.dropWhile p).reverse, by simp⟩

theorem pyStrip_idem (s : CL) : pyStrip (pyStrip s) = pyStrip s := by
  unfold pyStrip
  rcases dropWhile_shape isPySpace s with h | ⟨a, t, h, ha⟩
  · unfold lstrip
    rw [h]
    rfl
  · unfold lstrip
    rw [h]
    obtain ⟨u, hu⟩ := rstripBy_cons_of_false isPySpace a t ha
    rw [hu, List.dropWhile_cons, if_neg (by simp [ha]), ← hu, rstripBy_idem]

theorem rstripBy_append_singleton (p : Char → Bool) (z : CL) (b : Char)
    (h : p b = false) : rstripBy p (z ++ [b]) = z ++ [b] := by
  unfold rstripBy
  rw [List.reverse_append, show [b].reverse = [b] from rfl, List.cons_append,
    List.nil_append, List.dropWhile_cons, if_neg (by simp [h])]
  simp

theorem mem_dropWhile_of_false {p : Char → Bool} {c : Char} :
    ∀ {s : CL}, c ∈ s → p c = false → c ∈ s.dropWhile p
  | [], h, _ => absurd h (List.not_mem_nil c)
  | a :: t, h, hc => by
    by_cases ha : p a = true
    · rw [List.dropWhile_cons, if_pos ha]
      have : c ∈ t := by
        rcases List.mem_cons.mp h with rfl | ht
        · rw [hc] at ha; exact absurd ha (by simp)
        · exact ht
      exact mem_dropWhile_of_false this hc
    · rw [List.dropWhile_cons, if_neg ha]
      exact h

theorem mem_rstripBy_of_false {p : Char → Bool} {c : Char} {s : CL}
    (h : c ∈ s) (hc : p c = false) : c ∈ rstripBy p s := by
  unfold rstripBy
  rw [List.mem_reverse]
  exact mem_dropWhile_of_false (List.mem_reverse.mpr h) hc

theorem mem_pyStrip_of_false {c : Char} {s : CL} (h : c ∈ s)
    (hc : isPySpace c = false) : c ∈ pyStrip s :=
  mem_rstripBy_of_false (mem_dropWhile_of_false h hc) hc

theorem takeWhile_append_of_all (p : Char → Bool) :
    ∀ (s t : CL), (∀ c ∈ s, p c = true) → (s ++ t).takeWhile p = s ++ t.takeWhile p
  | [], _, _ => rfl
  | a :: s, t, h => by
    rw [List.cons_append, List.takeWhile_cons, if_pos (h a (by simp)), List.cons_append,
      takeWhile_append_of_all p s t (fun c hc => h c (List.mem_cons_of_mem a hc))]

theorem dropWhilePred_append_of_all (p : Char → Bool) :
    ∀ (s t : CL), (∀ c ∈ s, p c = true) → (s ++ t).dropWhile p = t.dropWhile p
  | [], _, _ => rfl
  | a :: s, t, h => by
    rw [List.cons_append, List.dropWhile_cons, if_pos (h a (by simp))]
    exact dropWhilePred_append_of_all p s t (fun c hc => h c (List.mem_cons_of_mem a hc))

theorem takeBefore_dropPast_recompose (sep : Char) :
    ∀ (s : CL), sep ∈ s → takeBefore sep s ++ sep :: dropPast sep s = s
  | [], h => absurd h (List.not_mem_nil sep)
  | a :: t, h => by
    by_cases ha : a = sep
    · subst ha
      unfold takeBefore dropPast
      rw [List.takeWhile_cons, if_neg (by simp), List.dropWhile_cons, if_neg (by simp)]
      rfl
    · unfold takeBefore dropPast
      rw [List.takeWhile_cons, if_pos (by simp [ha]), List.dropWhile_cons,
        if_pos (by simp [ha]), List.cons_append]
      have ht : sep ∈ t := by
        rcases List.mem_cons.mp h with hs | hs
        · exact absurd hs.symm ha
        · exact hs
      rw [show List.takeWhile (· != sep) t ++ sep :: (List.dropWhile (· != sep) t).tail
            = takeBefore sep t ++ sep :: dropPast sep t from rfl]
      rw [takeBefore_dropPast_recompose sep t ht]

theorem ne_of_mem_takeBefore {sep c : Char} {s : CL} (h : c ∈ takeBefore sep s) :
    c ≠ sep := by
  have hp : (c != sep) = true := List.mem_takeWhile_imp (p := (· != sep)) h
  exact bne_iff_ne.mp hp

theorem mem_of_mem_takeBefore {sep c : Char} {s : CL} (h : c ∈ takeBefore sep s) :
    c ∈ s :=
  (List.takeWhile_sublist _).subset h

theorem mem_of_mem_gmail_local {c : Char} {l : CL} (h : c ∈ gmail_local l) : c ∈ l :=
  mem_of_mem_takeBefore (List.mem_filter.mp h).1

theorem gmail_local_self (l : CL) : gmail_local (gmail_local l) = gmail_local l := by
  unfold gmail_local
  rw [show takeBefore '+' ((takeBefore '+' l).filter (· != '.'))
        = (takeBefore '+' l).filter (· != '.') from
      List.takeWhile_eq_self_iff.mpr (fun c hc => by
        have := ne_of_mem_takeBefore (List.mem_filter.mp hc).1
        simp [this])]
  rw [List.filter_eq_self.mpr (fun c hc => (List.mem_filter.mp hc).2)]

theorem contains_eq_true_iff_mem {c : Char} {s : CL} : s.contains c = true ↔ c ∈ s :=
  ⟨List.mem_of_elem_eq_true, List.elem_eq_true_of_mem⟩

theorem at_mem_of_mem_lowerCL {x : CL} (h : '@' ∈ lowerCL x) : '@' ∈ x := by
  obtain ⟨b, hb, he⟩ := List.mem_map.mp h
  exact lowerChar_at b he ▸ hb

/-- C10 counterexample: `normalize_email` is not idempotent.  On
`". a@gmail.com"` the Gmail dot-removal turns the local part `". a"` into
`" a"`, exposing leading whitespace that the initial strip has already
passed; renormalizing then strips it, giving a different string. -/
theorem C10_counterexample :
    normalize_email (str ". a@gmail.com") = str " a@gmail.com" ∧
    normalize_email (normalize_email (str ". a@gmail.com")) = str "a@gmail.com" ∧
    normalize_email (normalize_email (str ". a@gmail.com"))
      ≠ normalize_email (str ". a@gmail.com") := by
  decide

/-- C10 (amended): `normalize_email` is idempotent on every input whose
normalized form does not begin with a whitespace character —
`normalize_email (normalize_email x) = normalize_email x` whenever
`normalize_email x` has no leading whitespace.  (The only failures are
Gmail/GoogleMail addresses whose local part starts with dots followed by
whitespace, where dot-removal exposes that whitespace.) -/
theorem C10_normalize_idempotent_no_leading_space (x : CL)
    (h : starts_with_space (normalize_email x) = false) :
    normalize_email (normalize_email x) = normalize_email x := by
  by_cases hg : (x.isEmpty || !x.contains '@') = true
  · -- no '@' in the input (or empty input): both calls lowercase and strip
    have hx1 : normalize_email x = pyStrip (lowerCL x) := by
      unfold normalize_email
      rw [if_pos hg]
    rw [hx1]
    have hguard : ((pyStrip (lowerCL x)).isEmpty
        || !(pyStrip (lowerCL x)).contains '@') = true := by
      rcases Bool.or_eq_true_iff.mp hg with he | hc
      · have hx0 : x = [] := by simpa using he
        subst hx0
        decide
      · have hnx : '@' ∉ x := by
          intro hmem
          rw [Bool.not_eq_true'] at hc
          rw [contains_eq_true_iff_mem.mpr hmem] at hc
          cases hc
        refine Bool.or_eq_true_iff.mpr (Or.inr ?_)
        rw [Bool.not_eq_true']
        rcases hcy : (pyStrip (lowerCL x)).contains '@' with _ | _
        · rfl
        · exact absurd (at_mem_of_mem_lowerCL
            (mem_of_mem_pyStrip (contains_eq_true_iff_mem.mp hcy))) hnx
    unfold normalize_email
    rw [if_pos hguard, lowerCL_pyStrip_lowerCL, pyStrip_idem]
  · -- the input contains an '@'
    have hgf : (x.isEmpty || !x.contains '@') = false := by
      revert hg
      cases x.isEmpty || !x.contains '@' <;> simp
    have hat : '@' ∈ x := by
      have hcn := (Bool.or_eq_false_iff.mp hgf).2
      rw [Bool.not_eq_false'] at hcn
      exact contains_eq_true_iff_mem.mp hcn
    have hat_l : '@' ∈ lowerCL x := List.mem_map.mpr ⟨'@', hat, by decide⟩
    have hat_e : '@' ∈ pyStrip (lowerCL x) := mem_pyStrip_of_false hat_l (by decide)
    have hrecomp : takeBefore '@' (pyStrip (lowerCL x)) ++ '@' ::
        dropPast '@' (pyStrip (lowerCL x)) = pyStrip (lowerCL x) :=
      takeBefore_dropPast_recompose '@' _ hat_e
    by_cases hd : dropPast '@' (pyStrip (lowerCL x)) = str "gmail.com" ∨
        dropPast '@' (pyStrip (lowerCL x)) = str "googlemail.com"
    · -- Gmail/GoogleMail branch
      have hx1 : normalize_email x
          = gmail_local (takeBefore '@' (pyStrip (lowerCL x))) ++ '@' ::
            str "gmail.com" := by
        unfold normalize_email
        rw [if_neg (by rw [hgf]; simp)]
        dsimp only
        rw [if_pos hd]
        dsimp only
        rw [if_neg (by decide)]
      rw [hx1] at h ⊢
      set L := gmail_local (takeBefore '@' (pyStrip (lowerCL x))) with hL
      have hLmem : ∀ c ∈ L, c ∈ lowerCL x := fun c hc =>
        mem_of_mem_pyStrip (mem_of_mem_takeBefore (mem_of_mem_gmail_local (hL ▸ hc)))
      have hLfix : ∀ c ∈ L, lowerChar c = c := fun c hc =>
        lowerChar_fixed_of_mem_lowerCL (hLmem c hc)
      have hLnat : ∀ c ∈ L, (c != '@') = true := fun c hc =>
        bne_iff_ne.mpr (ne_of_mem_takeBefore (mem_of_mem_gmail_local (hL ▸ hc)))
      have hlower : lowerCL (L ++ '@' :: str "gmail.com")
          = L ++ '@' :: str "gmail.com" := by
        unfold lowerCL
        rw [List.map_append, map_id_of_fixed _ L hLfix, List.map_cons]
        rw [show lowerChar '@' = '@' from by decide,
          show (str "gmail.com").map lowerChar = str "gmail.com" from by decide]
      have hgm : str "gmail.com" = str "gmail.co" ++ ['m'] := by decide
      have hrs : rstripBy isPySpace (L ++ '@' :: str "gmail.com")
          = L ++ '@' :: str "gmail.com" := by
        have hshape : L ++ '@' :: str "gmail.com"
            = (L ++ '@' :: str "gmail.co") ++ ['m'] := by
          rw [List.append_assoc, List.cons_append, ← hgm]
        rw [hshape, rstripBy_append_singleton _ _ _ (by decide)]
      have hls : lstrip (L ++ '@' :: str "gmail.com")
          = L ++ '@' :: str "gmail.com" := by
        unfold lstrip
        rcases hLc : L with _ | ⟨a, t⟩
        · rw [List.nil_append, List.dropWhile_cons, if_neg (by decide)]
        · rw [hLc] at h
          have hsp : isPySpace a = false := by
            simpa [starts_with_space] using h
          rw [List.cons_append, List.dropWhile_cons, if_neg (by simp [hsp])]
      have hstrip : pyStrip (L ++ '@' :: str "gmail.com")
          = L ++ '@' :: str "gmail.com" := by
        unfold pyStrip
        rw [hls, hrs]
      have htake : takeBefore '@' (L ++ '@' :: str "gmail.com") = L := by
        unfold takeBefore
        rw [takeWhile_append_of_all _ L _ hLnat, List.takeWhile_cons,
          if_neg (by decide)]
        simp
      have hdrop : dropPast '@' (L ++ '@' :: str "gmail.com") = str "gmail.com" := by
        unfold dropPast
        rw [dropWhilePred_append_of_all _ L _ hLnat, List.dropWhile_cons,
          if_neg (by decide)]
        rfl
      have hguard2 : ((L ++ '@' :: str "gmail.com").isEmpty
          || !(L ++ '@' :: str "gmail.com").contains '@') = false := by
        have hmem2 : '@' ∈ L ++ '@' :: str "gmail.com" :=
          List.mem_append.mpr (Or.inr (List.mem_cons_self '@' _))
        rw [Bool.or_eq_false_iff]
        constructor
        · simp
        · rw [Bool.not_eq_false']
          exact contains_eq_true_iff_mem.mpr hmem2
      unfold normalize_email
      rw [if_neg (by rw [hguard2]; simp)]
      dsimp only
      rw [hlower, hstrip, htake, hdrop, if_pos (Or.inl rfl)]
      dsimp only
      rw [if_neg (by decide), hL, gmail_local_self]
    · -- ordinary domain: the first call returns the stripped lowercase input
      have hx1 : normalize_email x = pyStrip (lowerCL x) := by
        unfold normalize_email
        rw [if_neg (by rw [hgf]; simp)]
        dsimp only
        rw [if_neg hd]
        dsimp only
        rw [if_neg (not_or.mp hd).2]
        exact hrecomp
      rw [hx1]
      have hguard2 : ((pyStrip (lowerCL x)).isEmpty
          || !(pyStrip (lowerCL x)).contains '@') = false := by
        rw [Bool.or_eq_false_iff]
        constructor
        · simpa using List.ne_nil_of_mem hat_e
        · rw [Bool.not_eq_false']
          exact contains_eq_true_iff_mem.mpr hat_e
      unfold normalize_email
      rw [if_neg (by rw [hguard2]; simp)]
      dsimp only
      rw [lowerCL_pyStrip_lowerCL, pyStrip_idem, if_neg hd, if_neg (not_or.mp hd).2]
      exact hrecomp

theorem C10_witness :
    starts_with_space (normalize_email (str "  User+Tag@GMAIL.com  ")) = false ∧
    normalize_email (normalize_email (str "  User+Tag@GMAIL.com  "))
      = normalize_email (str "  User+Tag@GMAIL.com  ") ∧
    normalize_email (str "  User+Tag@GMAIL.com  ") = str "user@gmail.com" :=
  ⟨by decide,
   C10_normalize_idempotent_no_leading_space (str "  User+Tag@GMAIL.com  ") (by decide),
   by decide⟩

theorem C7_witness :
    (c7_store.status ≠ "processing" ∨ c7_store.updated_at + 30 < 100) ∧
    (lock_store_for_processing c7_store 100).1 = true ∧
    (lock_store_for_processing (lock_store_for_processing c7_store 100).2 100).1 = false :=
  ⟨Or.inl (by decide),
   (C7_lock_exclusivity c7_store 100 100 (Or.inl (by decide)) (by omega)).1,
   (C7_lock_exclusivity c7_store 100 100 (Or.inl (by decide)) (by omega)).2.2⟩

end Spec2Proof
